import Mathlib

/-!
# Verification of the community-cup-fantasy scoring and recomputation core

Shallow embedding of the scoring engine and recomputation coordinator of the
fantasy-sports server (`src/server.js` and its duplicated variants in
`src/unnamed/part_003`, `part_004`, `part_005`).

Modelling conventions:
* JavaScript strings are lists of Unicode code points (`JStr`); the only string
  operation the core uses is `toUpperCase`, modelled on the ASCII letters.
* A numeric field of a loosely-typed record is `Option Int`: `none` stands for
  an absent / `undefined` / `null` field.  The `(x || 0)` coercion of the code
  is `orZero`.  Arithmetic on possibly-`undefined` JS numbers (as performed by
  the `part_003` variant, which has no `|| 0` guards) is modelled on
  `Option ℚ`, with `none` standing for `NaN`; `undefined` entering arithmetic
  yields `NaN`, `NaN` propagates, and `NaN >= k` is false.
* `Math.round` is `jsRound`: round half towards positive infinity.
-/

namespace CommunityCup

/-- A JavaScript string, as its list of code points. -/
abbrev JStr := List Nat

/-- ASCII model of `String.prototype.toUpperCase` on one code point. -/
def upperCode (c : Nat) : Nat := if 97 ≤ c ∧ c ≤ 122 then c - 32 else c

/-- `s.toUpperCase()`. -/
def jsToUpper (s : JStr) : JStr := s.map upperCode

/-- `(x || 0)`: an absent/`null` numeric field is coerced to `0`. -/
def orZero (o : Option Int) : Int := o.getD 0

/-- `Math.round`: round half towards `+∞` (JavaScript semantics). -/
def jsRound (q : ℚ) : Int := ⌊q + 1 / 2⌋

/-- One player's statistic record for a match, as stored in `match.stats`.
Numeric fields are optional: `none` models an absent/`null` field. -/
structure PlayerStat where
  playerName : Option JStr := none
  runs : Option Int := none
  fours : Option Int := none
  sixes : Option Int := none
  wickets : Option Int := none
  maidens : Option Int := none
  catches : Option Int := none
  mvp : Bool := false
deriving DecidableEq

/-- The all-absent statistic `{}` (also the default parameter value of
`computePoints` in `src/server.js`). -/
def emptyStat : PlayerStat := {}

/-- `computePoints(stat = {}, isCaptain = false, isVice = false)` of
`src/server.js` lines 493-506; the copy in `src/unnamed/part_005` lines
784-797 is textually identical.  All numeric fields are read through
`(x || 0)`, so the function is total over records with absent fields. -/
def computePoints (stat : PlayerStat) (isCaptain : Bool) (isVice : Bool) : Int :=
  let pts : Int :=
    orZero stat.runs * 1 + orZero stat.fours * 1 + orZero stat.sixes * 2 +
      orZero stat.wickets * 25 +
      (if 3 ≤ orZero stat.wickets then 10 else 0) +
      orZero stat.maidens * 10 + orZero stat.catches * 8 +
      (if stat.mvp then 15 else 0)
  let pts : Int := if isCaptain then pts * 2 else pts
  let pts : Int := if isVice then jsRound ((pts : ℚ) * (3 / 2 : ℚ)) else pts
  -- final `Math.round(pts)` on an integer value is the identity
  pts

/-- `computePoints(stat, isCaptain, isVice)` of `src/unnamed/part_004`
lines 499-513: same body as the server.js version, but guarded by
`if (!stat) return 0;`, so it takes a possibly-`null` statistic. -/
def computePointsPart4 (stat : Option PlayerStat) (isCaptain : Bool) (isVice : Bool) : Int :=
  match stat with
  | none => 0
  | some st =>
    let pts : Int :=
      orZero st.runs * 1 + orZero st.fours * 1 + orZero st.sixes * 2 +
        orZero st.wickets * 25 +
        (if 3 ≤ orZero st.wickets then 10 else 0) +
        orZero st.maidens * 10 + orZero st.catches * 8 +
        (if st.mvp then 15 else 0)
    let pts : Int := if isCaptain then pts * 2 else pts
    let pts : Int := if isVice then jsRound ((pts : ℚ) * (3 / 2 : ℚ)) else pts
    pts

/-! ## NaN-propagating JS arithmetic, for the `part_003` variant -/

/-- A JS number that may be `NaN` (`none`). -/
abbrev JNum := Option ℚ

/-- Addition on possibly-`NaN` JS numbers. -/
def jAdd (a b : JNum) : JNum :=
  match a, b with
  | some x, some y => some (x + y)
  | _, _ => none

/-- Multiplication on possibly-`NaN` JS numbers. -/
def jMul (a b : JNum) : JNum :=
  match a, b with
  | some x, some y => some (x * y)
  | _, _ => none

/-- Reading a (possibly absent) numeric field for use in arithmetic:
`undefined` entering `+`/`*` behaves as `NaN`. -/
def jField (o : Option Int) : JNum := o.map (fun n => (n : ℚ))

/-- `x >= k` in JS: false when `x` is `NaN` or `undefined`. -/
def jGe (o : Option Int) (k : Int) : Bool :=
  match o with
  | some x => k ≤ x
  | none => false

/-- `Math.round` on a possibly-`NaN` number: `Math.round(NaN)` is `NaN`. -/
def jRoundN (a : JNum) : JNum := a.map (fun q => ((jsRound q : Int) : ℚ))

/-- `computePoints(stat, isCaptain, isVice)` of `src/unnamed/part_003`
lines 494-511.  It guards only against a missing statistic
(`if (!stat) return 0;`); the numeric fields are used with **no** `|| 0`
coercion (`pts += stat.runs * 1;` etc.), so an absent field makes the
whole result `NaN` (modelled as `none`). -/
def computePointsPart3 (stat : Option PlayerStat) (isCaptain : Bool) (isVice : Bool) : JNum :=
  match stat with
  | none => some 0
  | some st =>
    let pts : JNum := some 0
    let pts := jAdd pts (jMul (jField st.runs) (some 1))
    let pts := jAdd pts (jMul (jField st.fours) (some 1))
    let pts := jAdd pts (jMul (jField st.sixes) (some 2))
    let pts := jAdd pts (jMul (jField st.wickets) (some 25))
    let pts := if jGe st.wickets 3 then jAdd pts (some 10) else pts
    let pts := jAdd pts (jMul (jField st.maidens) (some 10))
    let pts := jAdd pts (jMul (jField st.catches) (some 8))
    let pts := if st.mvp then jAdd pts (some 15) else pts
    let pts := if isCaptain then jMul pts (some 2) else pts
    let pts := if isVice then jRoundN (jMul pts (some (3 / 2 : ℚ))) else pts
    jRoundN pts

/-- `calcPlayerPoints(stat)` of `src/unnamed/part_005` lines 1254-1271: the
helper used by the entry-based leaderboard.  Note its table differs from
`computePoints`: wickets are worth 20, catches 10, and there is no
three-wicket bonus, no mvp bonus and no captain/vice handling. -/
def calcPlayerPoints (stat : Option PlayerStat) : Int :=
  match stat with
  | none => 0
  | some st =>
    orZero st.runs * 1 + orZero st.fours * 1 + orZero st.sixes * 2 +
      orZero st.wickets * 20 + orZero st.maidens * 10 + orZero st.catches * 10

/-! ## Spec-side closed forms for the scoring table -/

/-- The scoring table of spec §4.1, before any multiplier. -/
def specBasePoints (s : PlayerStat) : Int :=
  orZero s.runs + orZero s.fours + 2 * orZero s.sixes + 25 * orZero s.wickets +
    (if 3 ≤ orZero s.wickets then 10 else 0) +
    10 * orZero s.maidens + 8 * orZero s.catches + (if s.mvp then 15 else 0)

/-- The worked example of spec §8: runs=45, fours=4, sixes=1, catches=1. -/
def exampleStat : PlayerStat :=
  { playerName := none, runs := some 45, fours := some 4, sixes := some 1,
    wickets := some 0, maidens := some 0, catches := some 1, mvp := false }

/-- wickets=3, all else 0. -/
def threeWicketStat : PlayerStat :=
  { playerName := none, runs := some 0, fours := some 0, sixes := some 0,
    wickets := some 3, maidens := some 0, catches := some 0, mvp := false }

/-- A statistic with every numeric field defaulted to `some 0` when absent. -/
def withZeroDefaults (s : PlayerStat) : PlayerStat :=
  { s with
    runs := some (orZero s.runs), fours := some (orZero s.fours),
    sixes := some (orZero s.sixes), wickets := some (orZero s.wickets),
    maidens := some (orZero s.maidens), catches := some (orZero s.catches) }

/-! ## Basic lemmas about the scoring engine -/

lemma jsRound_intCast (n : Int) : jsRound ((n : ℚ)) = n := by
  rw [jsRound, add_comm, Int.floor_add_int]
  norm_num

lemma jsRound_cast_eq (q : ℚ) (n : Int) (h : q = (n : ℚ)) : jsRound q = n := by
  rw [h, jsRound_intCast]

lemma computePoints_base_eq (s : PlayerStat) :
    orZero s.runs * 1 + orZero s.fours * 1 + orZero s.sixes * 2 +
        orZero s.wickets * 25 +
        (if 3 ≤ orZero s.wickets then 10 else 0) +
        orZero s.maidens * 10 + orZero s.catches * 8 +
        (if s.mvp then 15 else 0) = specBasePoints s := by
  simp only [specBasePoints]
  ring

lemma computePoints_false_false (s : PlayerStat) :
    computePoints s false false = specBasePoints s := by
  simp only [computePoints, Bool.false_eq_true, if_false, computePoints_base_eq]

lemma computePoints_true_false (s : PlayerStat) :
    computePoints s true false = 2 * specBasePoints s := by
  simp only [computePoints, Bool.false_eq_true, if_false, if_true,
    computePoints_base_eq]
  ring

lemma computePoints_false_true (s : PlayerStat) :
    computePoints s false true = jsRound (3 * (specBasePoints s : ℚ) / 2) := by
  simp only [computePoints, Bool.false_eq_true, if_false, if_true,
    computePoints_base_eq]
  congr 1
  ring

lemma computePoints_true_true (s : PlayerStat) :
    computePoints s true true = 3 * specBasePoints s := by
  simp only [computePoints, if_true, computePoints_base_eq]
  have h : (((2 * specBasePoints s : Int) : ℚ)) * (3 / 2 : ℚ) =
      ((3 * specBasePoints s : Int) : ℚ) := by
    push_cast
    ring
  rw [mul_comm (specBasePoints s) 2, h, jsRound_intCast]

/-- C1: for every player statistic, `computePoints` follows the fixed scoring
table — base points `runs + fours + 2·sixes + 25·wickets + (10 if wickets ≥ 3)
+ 10·maidens + 8·catches + (15 if mvp)`, doubled for the captain, multiplied by
1.5 and rounded half-up for the vice-captain alone; in particular the spec's
worked examples evaluate to 59 / 118 / 89 and the three-wicket example to
85. -/
theorem computePoints_scoring_table :
    (∀ s : PlayerStat,
        computePoints s false false = specBasePoints s ∧
        computePoints s true false = 2 * specBasePoints s ∧
        computePoints s false true = jsRound (3 * (specBasePoints s : ℚ) / 2)) ∧
    computePoints exampleStat false false = 59 ∧
    computePoints exampleStat true false = 118 ∧
    computePoints exampleStat false true = 89 ∧
    computePoints threeWicketStat false false = 85 := by
  refine ⟨fun s => ⟨computePoints_false_false s, computePoints_true_false s,
    computePoints_false_true s⟩, by decide, by decide, ?_, by decide⟩
  norm_num [computePoints, exampleStat, orZero, jsRound]

/-- C2 counterexample: on the spec's worked example (base 59), setting both
`isCaptain` and `isViceCaptain` yields 177, not the captain-only 118 — the
vice multiplier is *not* ignored when both flags are set. -/
theorem computePoints_both_flags_counterexample :
    computePoints exampleStat true true = 177 ∧
    computePoints exampleStat true false = 118 ∧
    (177 : Int) ≠ 118 := by
  refine ⟨?_, by decide, by decide⟩
  norm_num [computePoints, exampleStat, orZero, jsRound]

/-- C2 amended: when both flags are set, *both* multipliers apply in sequence
(`pts *= 2`, then `pts = Math.round(pts * 1.5)`), so the result is three times
the base — i.e. the captain-only result plus one extra base. -/
theorem computePoints_both_flags_both_multipliers (s : PlayerStat) :
    computePoints s true true = 3 * specBasePoints s ∧
    computePoints s true true = computePoints s true false + specBasePoints s := by
  refine ⟨computePoints_true_true s, ?_⟩
  rw [computePoints_true_true s, computePoints_true_false s]
  ring

/-- C3 counterexample: the `part_003` copy of `computePoints` has no `|| 0`
guards, so a statistic object that is present but has all numeric fields
absent evaluates to `NaN` (modelled `none`), not to the integer 0 the claim
requires. -/
theorem computePointsPart3_absent_fields_nan :
    computePointsPart3 (some emptyStat) false false = none ∧
    (none : JNum) ≠ some 0 := by
  exact ⟨by decide, by decide⟩

/-- C3 amended: the `src/server.js` / `part_005` `computePoints` is total with
absent/`null` numeric fields coerced to 0 and an all-absent statistic scoring
0; the `part_003` duplicate agrees that a wholly missing/`null` statistic
scores 0, but returns `NaN` whenever the statistic object is present with an
absent numeric field. -/
theorem computePoints_missing_field_handling (c v : Bool) (s : PlayerStat) :
    computePoints emptyStat c v = 0 ∧
    computePointsPart3 none c v = some 0 ∧
    computePointsPart3 (some emptyStat) c v = none ∧
    computePoints s c v = computePoints (withZeroDefaults s) c v := by
  refine ⟨?_, rfl, ?_, ?_⟩
  · cases c <;> cases v <;>
      norm_num [computePoints, emptyStat, orZero, jsRound]
  · cases c <;> cases v <;> decide
  · have h : withZeroDefaults s = { s with
        runs := some (orZero s.runs), fours := some (orZero s.fours),
        sixes := some (orZero s.sixes), wickets := some (orZero s.wickets),
        maidens := some (orZero s.maidens), catches := some (orZero s.catches) } := rfl
    simp [computePoints, h, orZero]

/-! ## Teams, the statistics lookup, and the recompute pass

`POST /api/admin/matches/:matchId/stats` (`src/server.js` lines 509-536,
identically `src/unnamed/part_005` lines 799-826): replace `match.stats`,
build `statMap[s.playerName.toUpperCase()] = s` (skipping records whose
`playerName` is falsy; later records overwrite earlier ones), then for every
team of the match sum `computePoints(statMap[(p||"").toUpperCase()] || {},
p === t.captain, p === t.vice)` over its players and store the total. -/

/-- A fantasy team document (`models/Team.js`). -/
structure Team where
  players : List JStr := []
  captain : JStr := []
  vice : JStr := []
  name : JStr := []
  viewerName : JStr := []
  totalPoints : Int := 0
  banned : Bool := false
deriving DecidableEq

/-- The `statMap` lookup: the last statistic whose truthy `playerName`
uppercases to `key` (later `statMap[...] = s` assignments overwrite). -/
def statLookup (stats : List PlayerStat) (key : JStr) : Option PlayerStat :=
  stats.foldl
    (fun acc s =>
      match s.playerName with
      | some nm => if nm ≠ [] ∧ jsToUpper nm = key then some s else acc
      | none => acc)
    none

/-- One player's contribution to a team total:
`computePoints(statMap[(p||"").toUpperCase()] || {}, p === t.captain,
p === t.vice)`. -/
def playerScore (stats : List PlayerStat) (t : Team) (p : JStr) : Int :=
  computePoints ((statLookup stats (jsToUpper p)).getD emptyStat)
    (p == t.captain) (p == t.vice)

/-- A team's recomputed total: the sum of its players' contributions. -/
def teamTotal (stats : List PlayerStat) (t : Team) : Int :=
  (t.players.map (playerScore stats t)).sum

/-- The per-match state the recompute pass touches: the stored statistics and
the match's teams. -/
structure MatchState where
  stats : List PlayerStat
  teams : List Team
deriving DecidableEq

/-- The recompute pass of `POST /api/admin/matches/:matchId/stats`: wholesale
replacement of the stored statistics, then every team's `totalPoints` is
re-derived from the new statistics. -/
def recomputeMatch (st : MatchState) (stats : List PlayerStat) : MatchState :=
  { stats := stats
    teams := st.teams.map fun t => { t with totalPoints := teamTotal stats t } }

lemma teamTotal_set_total (stats : List PlayerStat) (t : Team) (n : Int) :
    teamTotal stats { t with totalPoints := n } = teamTotal stats t := rfl

/-- C4: the recompute pass is idempotent — rerunning it with the same
statistics array changes nothing, so in particular every team's
`totalPoints` is identical after the first and the second run. -/
theorem recomputeMatch_idempotent (st : MatchState) (stats : List PlayerStat) :
    recomputeMatch (recomputeMatch st stats) stats = recomputeMatch st stats ∧
    (recomputeMatch (recomputeMatch st stats) stats).teams.map Team.totalPoints =
      (recomputeMatch st stats).teams.map Team.totalPoints := by
  have h : recomputeMatch (recomputeMatch st stats) stats = recomputeMatch st stats := by
    simp only [recomputeMatch, List.map_map]
    exact rfl
  exact ⟨h, by rw [h]⟩

/-- C10: the statistic lookup is case-insensitive (keys are uppercased), but
the captain flag fed to `computePoints` is `p === t.captain`, an exact
case-sensitive comparison: a captain whose stored spelling differs from the
roster spelling only in letter case still scores through the uppercased
lookup, yet gets no captain multiplier. -/
theorem captain_flag_case_sensitive (stats : List PlayerStat) (t : Team) (p : JStr)
    (hmem : p ∈ t.players) (hcase : jsToUpper t.captain = jsToUpper p)
    (hne : t.captain ≠ p) :
    playerScore stats t p =
      computePoints ((statLookup stats (jsToUpper p)).getD emptyStat) false
        (p == t.vice) ∧
    statLookup stats (jsToUpper p) = statLookup stats (jsToUpper t.captain) := by
  constructor
  · have hpc : (p == t.captain) = false := by
      simp only [beq_eq_false_iff_ne, ne_eq]
      exact fun h => hne h.symm
    rw [playerScore, hpc]
  · rw [hcase]

/-- Concrete instance of C10: player "Ab" with a 59-point statistic, captain
recorded as "AB": the statistic is found, but the score is 59, not 118. -/
theorem captain_flag_case_witness :
    playerScore [{ exampleStat with playerName := some [97, 98] }]
        { players := [[65, 98]], captain := [65, 66], vice := [] } [65, 98] =
      computePoints
        ((statLookup [{ exampleStat with playerName := some [97, 98] }]
            (jsToUpper [65, 98])).getD emptyStat) false
        (([65, 98] : JStr) == ([] : JStr)) ∧
    statLookup [{ exampleStat with playerName := some [97, 98] }]
        (jsToUpper [65, 98]) =
      statLookup [{ exampleStat with playerName := some [97, 98] }]
        (jsToUpper [65, 66]) :=
  captain_flag_case_sensitive _ _ _ (by decide) (by decide) (by decide)

example :
    playerScore [{ exampleStat with playerName := some [97, 98] }]
      { players := [[65, 98]], captain := [65, 66], vice := [] } [65, 98] = 59 := by
  decide

example :
    playerScore [{ exampleStat with playerName := some [97, 98] }]
      { players := [[65, 98]], captain := [65, 98], vice := [] } [65, 98] = 118 := by
  decide

/-! ## Leaderboard (`GET /api/matches/:matchId/leaderboard`,
`src/server.js` lines 539-556)

Non-banned teams of the match are mapped to rows with the same
`computePoints` per-player sum, then sorted by `.sort((a,b) => b.total -
a.total)`.  `Array.prototype.sort` is stable (ECMAScript 2019), so the model
is the unique stable descending sort. -/

/-- One leaderboard row. -/
structure BoardRow where
  name : JStr
  viewerName : JStr
  total : Int
deriving DecidableEq

/-- The row built for a team. -/
def boardRowOf (stats : List PlayerStat) (t : Team) : BoardRow :=
  { name := t.name, viewerName := t.viewerName, total := teamTotal stats t }

/-- Stable insertion for the descending-by-total order: a later row is placed
after every already-placed row of greater-or-equal total. -/
def insertDescTotal (r : BoardRow) : List BoardRow → List BoardRow
  | [] => [r]
  | x :: xs => if x.total ≤ r.total then r :: x :: xs else x :: insertDescTotal r xs

/-- The stable descending sort of `.sort((a,b) => b.total - a.total)`. -/
def sortDescTotal : List BoardRow → List BoardRow
  | [] => []
  | x :: xs => insertDescTotal x (sortDescTotal xs)

/-- The leaderboard computation: filter out banned teams, build rows with the
shared `teamTotal` sum, sort descending by total. -/
def computeLeaderboard (st : MatchState) : List BoardRow :=
  sortDescTotal ((st.teams.filter fun t => !t.banned).map (boardRowOf st.stats))

lemma insertDescTotal_perm (r : BoardRow) (l : List BoardRow) :
    List.Perm (insertDescTotal r l) (r :: l) := by
  induction l with
  | nil => rfl
  | cons x xs ih =>
    rw [insertDescTotal]
    split
    · rfl
    · exact (ih.cons x).trans (List.Perm.swap r x xs)

lemma sortDescTotal_perm (l : List BoardRow) : List.Perm (sortDescTotal l) l := by
  induction l with
  | nil => rfl
  | cons x xs ih => exact (insertDescTotal_perm x (sortDescTotal xs)).trans (ih.cons x)

lemma insertDescTotal_pairwise (r : BoardRow) (l : List BoardRow)
    (hl : l.Pairwise fun a b => b.total ≤ a.total) :
    (insertDescTotal r l).Pairwise fun a b => b.total ≤ a.total := by
  induction l with
  | nil => simp [insertDescTotal]
  | cons x xs ih =>
    rw [insertDescTotal]
    rcases List.pairwise_cons.mp hl with ⟨hx, hxs⟩
    split
    · rename_i hle
      refine List.pairwise_cons.mpr ⟨?_, hl⟩
      intro b hb
      rcases List.mem_cons.mp hb with hb | hb
      · exact hb ▸ hle
      · exact le_trans (hx b hb) hle
    · rename_i hgt
      push_neg at hgt
      refine List.pairwise_cons.mpr ⟨?_, ih hxs⟩
      intro b hb
      have hb' : b = r ∨ b ∈ xs :=
        List.mem_cons.mp ((insertDescTotal_perm r xs).mem_iff.mp hb)
      rcases hb' with hb' | hb'
      · exact hb' ▸ le_of_lt hgt
      · exact hx b hb'

lemma sortDescTotal_pairwise (l : List BoardRow) :
    (sortDescTotal l).Pairwise fun a b => b.total ≤ a.total := by
  induction l with
  | nil => simp [sortDescTotal]
  | cons x xs ih => exact insertDescTotal_pairwise x (sortDescTotal xs) ih

lemma insertDescTotal_filter_eq (r : BoardRow) (l : List BoardRow) (k : Int)
    (hr : r.total = k) :
    (insertDescTotal r l).filter (fun x => x.total = k) =
      r :: l.filter (fun x => x.total = k) := by
  induction l with
  | nil => simp [insertDescTotal, hr]
  | cons x xs ih =>
    rw [insertDescTotal]
    split
    · simp [List.filter_cons, hr]
    · rename_i hgt
      push_neg at hgt
      have hx : ¬ (x.total = k) := by
        intro h
        exact absurd (h.trans hr.symm) (ne_of_gt hgt)
      simp only [List.filter_cons]
      rw [if_neg (by simpa using hx), if_neg (by simpa using hx), ih]

lemma insertDescTotal_filter_ne (r : BoardRow) (l : List BoardRow) (k : Int)
    (hr : ¬ r.total = k) :
    (insertDescTotal r l).filter (fun x => x.total = k) =
      l.filter (fun x => x.total = k) := by
  induction l with
  | nil => simp [insertDescTotal, hr]
  | cons x xs ih =>
    rw [insertDescTotal]
    split
    · simp only [List.filter_cons]
      rw [if_neg (by simpa using hr)]
    · simp only [List.filter_cons]
      rw [ih]

/-- Stability: within each total value, the sort preserves input order. -/
lemma sortDescTotal_filter (l : List BoardRow) (k : Int) :
    (sortDescTotal l).filter (fun x => x.total = k) =
      l.filter (fun x => x.total = k) := by
  induction l with
  | nil => rfl
  | cons x xs ih =>
    rw [sortDescTotal]
    by_cases hx : x.total = k
    · rw [insertDescTotal_filter_eq x (sortDescTotal xs) k hx, ih,
        List.filter_cons, if_pos (by simpa using hx)]
    · rw [insertDescTotal_filter_ne x (sortDescTotal xs) k hx, ih,
        List.filter_cons, if_neg (by simpa using hx)]

/-- C9: `computeLeaderboard` returns exactly the match's non-banned teams,
each scored by the shared per-player `computePoints` sum (`teamTotal`),
sorted so that every adjacent pair is in non-increasing total order, and
rows of equal total keep the store's input order. -/
theorem computeLeaderboard_sorted_stable (st : MatchState) :
    List.Perm (computeLeaderboard st)
      ((st.teams.filter fun t => !t.banned).map (boardRowOf st.stats)) ∧
    (computeLeaderboard st).Chain' (fun a b => b.total ≤ a.total) ∧
    ∀ k : Int,
      (computeLeaderboard st).filter (fun r => r.total = k) =
        ((st.teams.filter fun t => !t.banned).map (boardRowOf st.stats)).filter
          (fun r => r.total = k) := by
  refine ⟨sortDescTotal_perm _, ?_, fun k => sortDescTotal_filter _ k⟩
  exact (sortDescTotal_pairwise _).chain'

/-- The spec's §8 example: three teams scoring 10 / 30 / 30 sort to
30, 30, 10 with the two 30-point teams keeping their input order. -/
example :
    sortDescTotal [⟨[97], [], 10⟩, ⟨[98], [], 30⟩, ⟨[99], [], 30⟩] =
      [⟨[98], [], 30⟩, ⟨[99], [], 30⟩, ⟨[97], [], 10⟩] := by decide

/-! ## The contest-join operation

Three implementations exist in the source:
* `src/server.js` lines 368-404: sequential awaited checks (per-viewer count,
  total count, duplicate `findOne`) followed by `TeamEntry.create`, with **no**
  transaction — each step is a separate awaited store operation;
* `src/unnamed/part_005` lines 464-630 ("Patched: … use transaction for
  atomic checks/insert"): the same checks plus the insert inside
  `session.withTransaction`, with error codes `PER_VIEWER_LIMIT`,
  `CONTEST_FULL`, `DUPLICATE`;
* `src/unnamed/part_003` lines 472-489: no precondition checks at all. -/

/-- A contest document (`models/Contest.js`), restricted to the fields the
join route reads. -/
structure ContestRec where
  closeTime : Option Int := none
  perViewerLimit : Option Int := none
  maxEntries : Option Int := none
deriving DecidableEq

/-- The match document fields the join route reads. -/
structure MatchRec where
  startTime : Option Int := none
deriving DecidableEq

/-- The team document fields the join route reads. -/
structure TeamDoc where
  teamId : Nat
  viewerName : JStr
deriving DecidableEq

/-- A `TeamEntry` document, restricted to the fields the join route's store
queries use. -/
structure JEntry where
  teamId : Nat
  viewerName : JStr
deriving DecidableEq

/-- JS truthiness of a numeric field (`0`, `null`, `undefined` are falsy). -/
def truthyNum (o : Option Int) : Bool :=
  match o with
  | none => false
  | some n => n != 0

/-- JS truthiness of a date field (`null`/`undefined` falsy, a `Date` truthy). -/
def truthyTime (o : Option Int) : Bool := o.isSome

/-- `TeamEntry.countDocuments({ contestId, viewerName })`. -/
def countViewerEntries (entries : List JEntry) (v : JStr) : Nat :=
  (entries.filter fun e => e.viewerName == v).length

/-- The error kinds of the raced precondition checks. -/
inductive JoinErr
  | viewerLimit
  | full
  | duplicate
deriving DecidableEq

/-- The three store-counting precondition checks of the join route, evaluated
in code order against one snapshot of the entries (server.js lines 386-395;
the same checks form the `part_005` transaction body). -/
def joinChecks (contest : ContestRec) (viewerName : JStr) (teamId : Nat)
    (entries : List JEntry) : Option JoinErr :=
  if truthyNum contest.perViewerLimit ∧
      contest.perViewerLimit.getD 1 ≤ (countViewerEntries entries viewerName : Int) then
    some .viewerLimit
  else if truthyNum contest.maxEntries ∧
      contest.maxEntries.getD 0 ≤ (entries.length : Int) then
    some .full
  else if entries.any fun e => e.teamId == teamId then
    some .duplicate
  else
    none

/-- Outcomes of the server.js join handler; each error constructor stands for
one distinct error response of the route. -/
inductive JoinOutcome
  | ok (e : JEntry)
  | errViewerNameRequired
  | errClosed
  | errStarted
  | errNoTeam
  | errViewerLimit
  | errFull
  | errDuplicate
deriving DecidableEq

/-- `POST /api/contests/:contestId/join` of `src/server.js` lines 368-404,
run to completion with no interleaving: `viewerName` required, contest close
time, match start time, team lookup, then the three counting checks (inline
in the route, in this order), then `TeamEntry.create`. -/
def joinServer (now : Int) (contest : ContestRec) (mtch : MatchRec)
    (team : Option TeamDoc) (viewerName : JStr) (entries : List JEntry) :
    JoinOutcome × List JEntry :=
  if viewerName = [] then (.errViewerNameRequired, entries)
  else if truthyTime contest.closeTime ∧ contest.closeTime.getD 0 ≤ now then
    (.errClosed, entries)
  else if truthyTime mtch.startTime ∧ mtch.startTime.getD 0 ≤ now then
    (.errStarted, entries)
  else
    match team with
    | none => (.errNoTeam, entries)
    | some tm =>
      if truthyNum contest.perViewerLimit ∧
          contest.perViewerLimit.getD 1 ≤ (countViewerEntries entries viewerName : Int) then
        (.errViewerLimit, entries)
      else if truthyNum contest.maxEntries ∧
          contest.maxEntries.getD 0 ≤ (entries.length : Int) then
        (.errFull, entries)
      else if entries.any fun e => e.teamId == tm.teamId then
        (.errDuplicate, entries)
      else
        let e : JEntry := { teamId := tm.teamId, viewerName := viewerName }
        (.ok e, entries ++ [e])

/-- The whole `session.withTransaction` body of `part_005` (lines 547-599) as
a single atomic step on the entry store: the MongoDB transaction — an external
collaborator — serializes it against concurrent joins of the same contest. -/
def joinTxn (contest : ContestRec) (req : JEntry) (entries : List JEntry) :
    Option JoinErr × List JEntry :=
  match joinChecks contest req.viewerName req.teamId entries with
  | some e => (some e, entries)
  | none => (none, entries ++ [req])

/-! ### Interleaving model for two concurrent non-transactional joins

In the server.js handler every precondition check and the insert are separate
awaited store operations, so a second request can run its checks between the
first request's checks and its insert.  We model each call as a two-phase
program — phase 1 evaluates `joinChecks` on the current store snapshot, phase
2 performs the insert (or reports the recorded error) — and a schedule as the
list of which call steps next. -/

/-- Progress of one in-flight join call. -/
inductive CallPhase
  | ready
  | checked (verdict : Option JoinErr)
  | finished (result : Option JoinErr)
deriving DecidableEq

/-- Shared store plus both calls' local state. -/
structure RaceState where
  entries : List JEntry
  phaseA : CallPhase
  phaseB : CallPhase
deriving DecidableEq

/-- One step of one call: check against the current entries, then act on the
recorded verdict. -/
def stepCall (contest : ContestRec) (req : JEntry) (ph : CallPhase)
    (entries : List JEntry) : CallPhase × List JEntry :=
  match ph with
  | .ready => (.checked (joinChecks contest req.viewerName req.teamId entries), entries)
  | .checked none => (.finished none, entries ++ [req])
  | .checked (some e) => (.finished (some e), entries)
  | .finished r => (.finished r, entries)

/-- Advance call A (`true`) or call B (`false`) by one step. -/
def raceStep (contest : ContestRec) (reqA reqB : JEntry) (s : RaceState)
    (who : Bool) : RaceState :=
  if who then
    let pe := stepCall contest reqA s.phaseA s.entries
    { s with phaseA := pe.1, entries := pe.2 }
  else
    let pe := stepCall contest reqB s.phaseB s.entries
    { s with phaseB := pe.1, entries := pe.2 }

/-- Run a schedule from an empty entry store. -/
def runRace (contest : ContestRec) (reqA reqB : JEntry) (sched : List Bool) :
    RaceState :=
  sched.foldl (raceStep contest reqA reqB) ⟨[], .ready, .ready⟩

/-- A contest with room (perViewerLimit 5, maxEntries 100). -/
def roomyContest : ContestRec :=
  { closeTime := none, perViewerLimit := some 5, maxEntries := some 100 }

/-- A one-slot contest (maxEntries 1, no per-viewer limit). -/
def oneSlotContest : ContestRec :=
  { closeTime := none, perViewerLimit := none, maxEntries := some 1 }

/-- Join request: team 7 of viewer "V". -/
def reqV : JEntry := { teamId := 7, viewerName := [86] }

/-- Join request: team 1 of viewer "A". -/
def reqA1 : JEntry := { teamId := 1, viewerName := [65] }

/-- Join request: team 2 of viewer "B". -/
def reqB2 : JEntry := { teamId := 2, viewerName := [66] }

/-- C5: the server.js join handler's checks and insert are **not** one atomic
unit.  Under the interleaving in which both calls run their precondition
checks before either insert, two concurrent joins for the same
(contest, team) both succeed and two identical entries are created (likewise
two joins for the single remaining slot), whereas the sequential schedule —
and the `part_005` transactional handler in either serialization order —
yield exactly one created entry and one duplicate (resp. full) error. -/
theorem join_race_nonatomic_duplicates :
    runRace roomyContest reqV reqV [true, false, true, false] =
      ⟨[reqV, reqV], .finished none, .finished none⟩ ∧
    runRace roomyContest reqV reqV [true, true, false, false] =
      ⟨[reqV], .finished none, .finished (some .duplicate)⟩ ∧
    runRace oneSlotContest reqA1 reqB2 [true, false, true, false] =
      ⟨[reqA1, reqB2], .finished none, .finished none⟩ ∧
    runRace oneSlotContest reqA1 reqB2 [true, true, false, false] =
      ⟨[reqA1], .finished none, .finished (some .full)⟩ ∧
    joinTxn roomyContest reqV [] = (none, [reqV]) ∧
    joinTxn roomyContest reqV [reqV] = (some .duplicate, [reqV]) ∧
    joinTxn oneSlotContest reqA1 [] = (none, [reqA1]) ∧
    joinTxn oneSlotContest reqB2 [reqA1] = (some .full, [reqA1]) := by
  decide

/-! ### Precondition characterization of the join route (C6) -/

/-- The contest is past its close time (`contest.closeTime && now >= closeTime`). -/
def contestClosedAt (contest : ContestRec) (now : Int) : Prop :=
  truthyTime contest.closeTime = true ∧ contest.closeTime.getD 0 ≤ now

/-- The match has started (`matchObj.startTime && now >= startTime`). -/
def matchStartedAt (mtch : MatchRec) (now : Int) : Prop :=
  truthyTime mtch.startTime = true ∧ mtch.startTime.getD 0 ≤ now

/-- The viewer's entry count has reached the per-viewer limit. -/
def viewerLimitHit (contest : ContestRec) (viewerName : JStr)
    (entries : List JEntry) : Prop :=
  truthyNum contest.perViewerLimit = true ∧
    contest.perViewerLimit.getD 1 ≤ (countViewerEntries entries viewerName : Int)

/-- The contest's total entry count has reached `maxEntries`. -/
def contestIsFull (contest : ContestRec) (entries : List JEntry) : Prop :=
  truthyNum contest.maxEntries = true ∧
    contest.maxEntries.getD 0 ≤ (entries.length : Int)

/-- An entry for this exact team already exists in the contest. -/
def duplicateEntryFor (teamId : Nat) (entries : List JEntry) : Prop :=
  (entries.any fun e => e.teamId == teamId) = true

/-- A contest-entry document of the `part_003` variant: note that no
`teamId` is stored. -/
structure P3Entry where
  viewerName : JStr
  players : List JStr
  captain : JStr
deriving DecidableEq

/-- `POST /api/contests/:contestId/join` of `src/unnamed/part_003` lines
472-489: beyond the contest-existence lookup it performs **no** precondition
checks and unconditionally creates the entry. -/
def joinPart3 (contestExists : Bool) (viewerName : JStr) (players : List JStr)
    (captain : JStr) (entries : List P3Entry) : Option P3Entry × List P3Entry :=
  if contestExists then
    let e : P3Entry := { viewerName := viewerName, players := players, captain := captain }
    (some e, entries ++ [e])
  else
    (none, entries)

/-- C6 counterexample: the `part_003` join implementation inserts an entry
even when the duplicate precondition is violated — joining again with the
very same team payload succeeds and leaves two identical entries. -/
theorem joinPart3_ignores_preconditions :
    (joinPart3 true [86] [[65]] [65] [⟨[86], [[65]], [65]⟩]).1 =
      some ⟨[86], [[65]], [65]⟩ ∧
    (joinPart3 true [86] [[65]] [65] [⟨[86], [[65]], [65]⟩]).2 =
      [⟨[86], [[65]], [65]⟩, ⟨[86], [[65]], [65]⟩] := by
  decide

/-- C6 amended: the `src/server.js` join handler creates an entry exactly when
every precondition holds, inserts nothing on any failure, and maps each
first-violated precondition (in check order) to its own distinct error kind;
the `part_003` variant, by contrast, checks nothing and always inserts. -/
theorem joinServer_preconditions (now : Int) (contest : ContestRec)
    (mtch : MatchRec) (team : Option TeamDoc) (viewerName : JStr)
    (entries : List JEntry) :
    ((∃ e, (joinServer now contest mtch team viewerName entries).1 = .ok e) ↔
      viewerName ≠ [] ∧ ¬contestClosedAt contest now ∧
        ¬matchStartedAt mtch now ∧
        ∃ tm, team = some tm ∧ ¬viewerLimitHit contest viewerName entries ∧
          ¬contestIsFull contest entries ∧
          ¬duplicateEntryFor tm.teamId entries) ∧
    ((∀ e, (joinServer now contest mtch team viewerName entries).1 ≠ .ok e) →
      (joinServer now contest mtch team viewerName entries).2 = entries) ∧
    (∀ e, (joinServer now contest mtch team viewerName entries).1 = .ok e →
      (joinServer now contest mtch team viewerName entries).2 = entries ++ [e]) ∧
    (viewerName ≠ [] → contestClosedAt contest now →
      (joinServer now contest mtch team viewerName entries).1 = .errClosed) ∧
    (viewerName ≠ [] → ¬contestClosedAt contest now → matchStartedAt mtch now →
      (joinServer now contest mtch team viewerName entries).1 = .errStarted) ∧
    (viewerName ≠ [] → ¬contestClosedAt contest now → ¬matchStartedAt mtch now →
      team = none →
      (joinServer now contest mtch team viewerName entries).1 = .errNoTeam) ∧
    (∀ tm, viewerName ≠ [] → ¬contestClosedAt contest now →
      ¬matchStartedAt mtch now → team = some tm →
      viewerLimitHit contest viewerName entries →
      (joinServer now contest mtch team viewerName entries).1 = .errViewerLimit) ∧
    (∀ tm, viewerName ≠ [] → ¬contestClosedAt contest now →
      ¬matchStartedAt mtch now → team = some tm →
      ¬viewerLimitHit contest viewerName entries →
      contestIsFull contest entries →
      (joinServer now contest mtch team viewerName entries).1 = .errFull) ∧
    (∀ tm, viewerName ≠ [] → ¬contestClosedAt contest now →
      ¬matchStartedAt mtch now → team = some tm →
      ¬viewerLimitHit contest viewerName entries →
      ¬contestIsFull contest entries →
      duplicateEntryFor tm.teamId entries →
      (joinServer now contest mtch team viewerName entries).1 = .errDuplicate) ∧
    (∀ (ce : Bool) (vn : JStr) (ps : List JStr) (cp : JStr) (es : List P3Entry),
      ce = true →
      (joinPart3 ce vn ps cp es).2 = es ++ [⟨vn, ps, cp⟩]) := by
  refine ⟨⟨?_, ?_⟩, ?_, ?_, ?_, ?_, ?_, ?_, ?_, ?_, ?_⟩
  · rintro ⟨e, he⟩
    rcases team with _ | tm
    · simp only [joinServer] at he
      split_ifs at he <;> simp at he
    · simp only [joinServer] at he
      split_ifs at he with h1 h2 h3 h4 h5 h6 <;> simp at he
      exact ⟨h1, h2, h3, tm, rfl, h4, h5, h6⟩
  · rintro ⟨h1, h2, h3, tm, h4, h5, h6, h7⟩
    subst h4
    unfold contestClosedAt at h2
    unfold matchStartedAt at h3
    unfold viewerLimitHit at h5
    unfold contestIsFull at h6
    unfold duplicateEntryFor at h7
    refine ⟨⟨tm.teamId, viewerName⟩, ?_⟩
    simp only [joinServer]
    rw [if_neg h1, if_neg h2, if_neg h3, if_neg h5, if_neg h6, if_neg h7]
  · intro hno
    rcases team with _ | tm
    · simp only [joinServer]
      split_ifs <;> rfl
    · simp only [joinServer]
      split_ifs with h1 h2 h3 h4 h5 h6 <;> try rfl
      exfalso
      refine hno ⟨tm.teamId, viewerName⟩ ?_
      simp only [joinServer]
      rw [if_neg h1, if_neg h2, if_neg h3, if_neg h4, if_neg h5, if_neg h6]
  · intro e he
    rcases team with _ | tm
    · simp only [joinServer] at he
      split_ifs at he <;> simp at he
    · simp only [joinServer] at he
      split_ifs at he with h1 h2 h3 h4 h5 h6 <;> simp at he
      subst he
      simp only [joinServer]
      rw [if_neg h1, if_neg h2, if_neg h3, if_neg h4, if_neg h5, if_neg h6]
  · intro hvn hcl
    unfold contestClosedAt at hcl
    simp only [joinServer]
    rw [if_neg hvn, if_pos hcl]
  · intro hvn hcl hst
    unfold contestClosedAt at hcl
    unfold matchStartedAt at hst
    simp only [joinServer]
    rw [if_neg hvn, if_neg hcl, if_pos hst]
  · intro hvn hcl hst hteam
    subst hteam
    unfold contestClosedAt at hcl
    unfold matchStartedAt at hst
    simp only [joinServer]
    rw [if_neg hvn, if_neg hcl, if_neg hst]
  · intro tm hvn hcl hst hteam hvl
    subst hteam
    unfold contestClosedAt at hcl
    unfold matchStartedAt at hst
    unfold viewerLimitHit at hvl
    simp only [joinServer]
    rw [if_neg hvn, if_neg hcl, if_neg hst, if_pos hvl]
  · intro tm hvn hcl hst hteam hvl hf
    subst hteam
    unfold contestClosedAt at hcl
    unfold matchStartedAt at hst
    unfold viewerLimitHit at hvl
    unfold contestIsFull at hf
    simp only [joinServer]
    rw [if_neg hvn, if_neg hcl, if_neg hst, if_neg hvl, if_pos hf]
  · intro tm hvn hcl hst hteam hvl hf hd
    subst hteam
    unfold contestClosedAt at hcl
    unfold matchStartedAt at hst
    unfold viewerLimitHit at hvl
    unfold contestIsFull at hf
    unfold duplicateEntryFor at hd
    simp only [joinServer]
    rw [if_neg hvn, if_neg hcl, if_neg hst, if_neg hvl, if_neg hf, if_pos hd]
  · intro ce vn ps cp es hce
    subst hce
    rfl

/-- Concrete instances of C6 via `joinServer_preconditions`: a closed contest
rejects with the closed kind, a duplicate rejects with the duplicate kind and
leaves the store unchanged. -/
theorem joinServer_preconditions_witness :
    (joinServer 10 ⟨some 5, some 5, some 10⟩ ⟨none⟩ (some ⟨7, [86]⟩) [86] []).1 =
      .errClosed ∧
    (joinServer 0 ⟨none, none, none⟩ ⟨none⟩ (some ⟨7, [86]⟩) [86]
        [⟨7, [86]⟩]).1 = .errDuplicate ∧
    (joinServer 0 ⟨none, none, none⟩ ⟨none⟩ (some ⟨7, [86]⟩) [86]
        [⟨7, [86]⟩]).2 = [⟨7, [86]⟩] := by
  have hdup :=
    (joinServer_preconditions 0 ⟨none, none, none⟩ ⟨none⟩ (some ⟨7, [86]⟩) [86]
        [⟨7, [86]⟩]).2.2.2.2.2.2.2.2.1 ⟨7, [86]⟩ (by decide)
      (fun h => absurd h.1 (by decide)) (fun h => absurd h.1 (by decide)) rfl
      (fun h => absurd h.1 (by decide)) (fun h => absurd h.1 (by decide)) rfl
  refine ⟨?_, hdup, ?_⟩
  · exact (joinServer_preconditions 10 ⟨some 5, some 5, some 10⟩ ⟨none⟩
      (some ⟨7, [86]⟩) [86] []).2.2.2.1 (by decide) ⟨rfl, by decide⟩
  · exact (joinServer_preconditions 0 ⟨none, none, none⟩ ⟨none⟩
      (some ⟨7, [86]⟩) [86] [⟨7, [86]⟩]).2.1
      (fun e h => JoinOutcome.noConfusion (hdup ▸ h))

/-! ## Batch recompute of `processMatchScorecard`
(`src/server.js` lines 625-650, `src/unnamed/part_005` lines 931-953)

After saving the normalized statistics, the function loops over the match's
teams, recomputes each total and `await t.save()`s it, with **no** try/catch
inside the loop; it finally returns `{ ok, teamsUpdated: teams.length,
statsCount }`.  The store's save operation may fail (external storage error);
`saveFails i` says whether the `i`-th save fails. -/

/-- The updated copy of a team after a successful save. -/
def savedTeam (stats : List PlayerStat) (t : Team) : Team :=
  { t with totalPoints := teamTotal stats t }

/-- The team-update loop: on the first failing save the exception propagates
and aborts the whole function, leaving the failing team and all later teams
un-updated in the store (the `.error` payload is the store's team state at
that moment). -/
def processTeamsLoop (stats : List PlayerStat) (saveFails : Nat → Bool) :
    Nat → List Team → List Team → Except (List Team) (List Team)
  | _, acc, [] => .ok acc
  | i, acc, t :: rest =>
    if saveFails i then .error (acc ++ t :: rest)
    else processTeamsLoop stats saveFails (i + 1) (acc ++ [savedTeam stats t]) rest

/-- `processMatchScorecard`, restricted to its team-update phase: on success
it reports `teamsUpdated: teams.length` — the number attempted. -/
def processMatchScorecard (stats : List PlayerStat) (teams : List Team)
    (saveFails : Nat → Bool) : Except (List Team) (List Team × Nat) :=
  match processTeamsLoop stats saveFails 0 [] teams with
  | .ok ts => .ok (ts, teams.length)
  | .error ts => .error ts

/-- C7 counterexample: with three teams and a storage failure on the second
save, the batch aborts — the third team is never updated and no count of
successful updates is reported — instead of logging and continuing. -/
theorem processMatchScorecard_aborts_on_failure :
    processMatchScorecard []
        [{ name := [97], totalPoints := 5 }, { name := [98], totalPoints := 5 },
          { name := [99], totalPoints := 5 }] (fun i => i == 1) =
      .error [{ name := [97], totalPoints := 0 }, { name := [98], totalPoints := 5 },
        { name := [99], totalPoints := 5 }] := rfl

lemma processTeamsLoop_ok (stats : List PlayerStat) (saveFails : Nat → Bool) :
    ∀ (ts : List Team) (i : Nat) (acc : List Team),
      (∀ j, j < ts.length → saveFails (i + j) = false) →
      processTeamsLoop stats saveFails i acc ts =
        .ok (acc ++ ts.map (savedTeam stats)) := by
  intro ts
  induction ts with
  | nil => intro i acc _; simp [processTeamsLoop]
  | cons t rest ih =>
    intro i acc h
    have h0 : saveFails i = false := by simpa using h 0 (by simp)
    rw [processTeamsLoop, if_neg (by simp [h0])]
    rw [ih (i + 1) (acc ++ [savedTeam stats t]) ?_]
    · simp
    · intro j hj
      have := h (j + 1) (by simpa using Nat.succ_lt_succ hj)
      simpa [Nat.add_assoc, Nat.add_comm 1 j] using this

lemma processTeamsLoop_err (stats : List PlayerStat) (saveFails : Nat → Bool)
    (t : Team) (post : List Team) :
    ∀ (pre : List Team) (i : Nat) (acc : List Team),
      (∀ j, j < pre.length → saveFails (i + j) = false) →
      saveFails (i + pre.length) = true →
      processTeamsLoop stats saveFails i acc (pre ++ t :: post) =
        .error (acc ++ pre.map (savedTeam stats) ++ t :: post) := by
  intro pre
  induction pre with
  | nil =>
    intro i acc _ hf
    rw [List.nil_append, processTeamsLoop, if_pos (by simpa using hf)]
    simp
  | cons p rest ih =>
    intro i acc h hf
    have h0 : saveFails i = false := by simpa using h 0 (by simp)
    rw [List.cons_append, processTeamsLoop, if_neg (by simp [h0])]
    rw [ih (i + 1) (acc ++ [savedTeam stats p]) ?_ ?_]
    · simp
    · intro j hj
      have := h (j + 1) (by simpa using Nat.succ_lt_succ hj)
      simpa [Nat.add_assoc, Nat.add_comm 1 j] using this
    · have : i + (rest.length + 1) = i + 1 + rest.length := by omega
      simpa [this] using hf

/-- C7 amended: the batch recompute of `processMatchScorecard` does **not**
log-and-continue.  When every save succeeds it returns `ok` with
`teamsUpdated = teams.length` (the attempted count, which then also equals
the successful count); on the first failing save the exception aborts the
batch with the earlier teams updated, the failing and all later teams
untouched, and no count reported. -/
theorem processMatchScorecard_failure_policy (stats : List PlayerStat)
    (teams : List Team) (saveFails : Nat → Bool) :
    ((∀ i, i < teams.length → saveFails i = false) →
      processMatchScorecard stats teams saveFails =
        .ok (teams.map (savedTeam stats), teams.length)) ∧
    (∀ pre t post, teams = pre ++ t :: post →
      (∀ i, i < pre.length → saveFails i = false) →
      saveFails pre.length = true →
      processMatchScorecard stats teams saveFails =
        .error (pre.map (savedTeam stats) ++ t :: post)) := by
  constructor
  · intro h
    rw [processMatchScorecard,
      processTeamsLoop_ok stats saveFails teams 0 [] (by simpa using h)]
    rfl
  · intro pre t post hteams h hf
    subst hteams
    rw [processMatchScorecard,
      processTeamsLoop_err stats saveFails t post pre 0 [] (by simpa using h)
        (by simpa using hf)]
    rfl

/-- Concrete instance of C7's amended statement: an all-successful batch over
two teams reports 2 (= attempted = successful), and a failure on the very
first save aborts with no team updated. -/
theorem processMatchScorecard_failure_policy_witness :
    processMatchScorecard [] [{ name := [97] }, { name := [98] }]
        (fun _ => false) =
      .ok ([{ name := [97], totalPoints := 0 }, { name := [98], totalPoints := 0 }], 2) ∧
    processMatchScorecard [] [{ name := [97], totalPoints := 5 }]
        (fun _ => true) =
      .error [{ name := [97], totalPoints := 5 }] := by
  constructor
  · have := (processMatchScorecard_failure_policy []
      [{ name := [97] }, { name := [98] }] (fun _ => false)).1
      (fun i _ => rfl)
    simpa [savedTeam, teamTotal] using this
  · have := (processMatchScorecard_failure_policy []
      [{ name := [97], totalPoints := 5 }] (fun _ => true)).2
      [] { name := [97], totalPoints := 5 } [] rfl (fun i hi => absurd hi (by simp)) rfl
    simpa using this

/-! ## The entry-based leaderboard of `part_005`
(`GET /api/matches/:matchId/leaderboard`, lines 1511-1621)

It scores per player with `calcPlayerPoints` (a *different* table), doubles
for the captain by **case-insensitive** comparison, and has no vice-captain
handling. -/

/-- `playerPoints[(s.playerName || "").toUpperCase()] = calcPlayerPoints(s)`
(later records overwrite earlier ones; no truthiness skip here). -/
def playerPointsMap (stats : List PlayerStat) (key : JStr) : Option Int :=
  stats.foldl
    (fun acc s =>
      if jsToUpper (s.playerName.getD []) = key then some (calcPlayerPoints (some s))
      else acc)
    none

/-- A contest-entry document as the entry-based leaderboard reads it. -/
structure EntryDoc where
  players : List JStr := []
  captain : JStr := []
deriving DecidableEq

/-- An entry's total in the entry-based leaderboard: base points from
`playerPoints`, doubled when the uppercased player equals the uppercased
captain. -/
def entryTotal (stats : List PlayerStat) (e : EntryDoc) : Int :=
  (e.players.map fun p =>
    let key := jsToUpper p
    let base := (playerPointsMap stats key).getD 0
    if e.captain ≠ [] ∧ key = jsToUpper e.captain then base * 2 else base).sum

/-- wickets=1, everything else absent. -/
def oneWicketStat : PlayerStat := { wickets := some 1 }

/-- The same one-wicket statistic, named "W". -/
def oneWicketStatNamed : PlayerStat := { playerName := some [87], wickets := some 1 }

/-- C8 counterexample: the scoring implementations do **not** agree.
`calcPlayerPoints` awards 20 for a wicket where `computePoints` awards 25
(plus, through `entryTotal` vs `teamTotal`, the same 20 ≠ 25 divergence for a
whole roster). -/
theorem calcPlayerPoints_disagrees :
    calcPlayerPoints (some oneWicketStat) = 20 ∧
    computePoints oneWicketStat false false = 25 ∧
    entryTotal [oneWicketStatNamed] { players := [[87]], captain := [] } = 20 ∧
    teamTotal [oneWicketStatNamed] { players := [[87]], captain := [], vice := [] } = 25 ∧
    (20 : Int) ≠ 25 := by
  decide

/-- C8 amended: the three `computePoints` copies (server.js/part_005,
part_004, and — on statistics whose numeric fields are all present — part_003)
implement the same scoring table, but `calcPlayerPoints` and the entry-based
leaderboard built on it use a different one (wickets 20, catches 10, no
three-wicket bonus, no mvp bonus, no vice multiplier), so not every scoring
implementation in the source agrees. -/
theorem scoring_variants_relationship :
    (∀ (s : PlayerStat) (c v : Bool),
      computePointsPart4 (some s) c v = computePoints s c v ∧
      computePointsPart4 none c v = 0) ∧
    (∀ (nm : Option JStr) (r f sx w m ct : Int) (mv c v : Bool),
      computePointsPart3
          (some { playerName := nm, runs := some r, fours := some f,
                  sixes := some sx, wickets := some w, maidens := some m,
                  catches := some ct, mvp := mv }) c v =
        some ((computePoints
            { playerName := nm, runs := some r, fours := some f,
              sixes := some sx, wickets := some w, maidens := some m,
              catches := some ct, mvp := mv } c v : Int) : ℚ)) ∧
    calcPlayerPoints (some oneWicketStat) = 20 ∧
    computePoints oneWicketStat false false = 25 := by
  refine ⟨fun s c v => ⟨rfl, rfl⟩, ?_, by decide, by decide⟩
  intro nm r f sx w m ct mv c v
  cases c <;> cases v <;>
    · simp only [computePointsPart3, computePoints, jAdd, jMul, jField, jGe,
        jRoundN, orZero, Option.map_some, Option.getD_some, Option.map_none,
        decide_eq_true_eq, Bool.false_eq_true, if_false, if_true]
      split_ifs <;>
        · refine congrArg some ?_
          beta_reduce
          try rw [jsRound_intCast]
          rw [Int.cast_inj]
          first
          | (apply jsRound_cast_eq
             push_cast
             ring1)
          | (congr 1
             push_cast
             ring1)


end CommunityCup
